import Mathlib

/-!
Verification development for the `github-do-extension` proxy service.

The definitions below are a shallow embedding of the Python sources:
`server.py` (the `/completion` handler, `stream_response`, and
`product_documentation_agent`), `AgentWrapper.py` (token lifecycle), and
`prompt_template.py` (the prompt template).  Python strings are modelled by
Lean `String` (with helpers over `List Char` mirroring `str.split()` and
`str.strip()`), network calls by explicit oracles, and exceptions by
explicit outcome constructors.
-/

namespace GithubDoExtension

/-- ASCII whitespace as recognised by Python `str.split()` / `str.strip()`
(space, tab, newline, carriage return, vertical tab, form feed). -/
def isPySpace (c : Char) : Bool :=
  c = ' ' || c = '\t' || c = '\n' || c = '\r' || c = '\x0b' || c = '\x0c'

/-- Accumulator-based splitter mirroring Python `str.split()` with no
arguments: splits on runs of whitespace and never produces empty words.
`cur` holds the (reversed) word currently being read. -/
def pySplitAux : List Char → List Char → List (List Char)
  | [], cur => if cur = [] then [] else [cur.reverse]
  | c :: cs, cur =>
    if isPySpace c then
      if cur = [] then pySplitAux cs []
      else cur.reverse :: pySplitAux cs []
    else pySplitAux cs (c :: cur)

/-- Python `text.split()` on a Lean `String`. -/
def pyWords (s : String) : List String :=
  (pySplitAux s.data []).map (fun w => String.mk w)

/-- Python `str.strip()` on a list of characters. -/
def pyStripChars (cs : List Char) : List Char :=
  ((cs.dropWhile isPySpace).reverse.dropWhile isPySpace).reverse

/-- Python `s.strip()`. -/
def pyStrip (s : String) : String :=
  String.mk (pyStripChars s.data)

/-- Truthiness of `chunk.strip()` in Python: the stripped string is
non-empty iff some character is not whitespace. -/
def hasNonSpace (s : String) : Bool :=
  s.data.any (fun c => !isPySpace c)

/-- `chunk_text` from `server.py` (lines 53-55): split the text into
whitespace-delimited words; if there are no words, return the original
text as the single chunk. -/
def chunk_text (text : String) : List String :=
  let words := pyWords text
  if words = [] then [text] else words

/-- One server-sent event emitted by `stream_response` in `server.py`.
`delta c` is a chunk `data: ...\\x7b"content": c\\x7d...`; `stopDelta` is the
final delta with `content: null` and `finish_reason: "stop"`; `doneSentinel`
is the literal `data: [DONE]` line. -/
inductive SSEEvent where
  | delta (content : String)
  | stopDelta
  | doneSentinel
deriving DecidableEq, Repr

/-- The exception kinds `AgentWrapper.get_response` can raise (token
issuance failure, JWT decode failure, transport failure). -/
inductive AgentError where
  | authError
  | decodeError
  | transportError
deriving DecidableEq, Repr

/-- The word-chunk events of `stream_response` (`server.py` lines 57-66):
each chunk that is truthy after `strip()` is emitted with a single
trailing space appended. -/
def word_events (resp : String) : List SSEEvent :=
  ((chunk_text resp).filter hasNonSpace).map (fun c => SSEEvent.delta (c ++ " "))

/-- The closing events of `stream_response` (`server.py` lines 68-80):
keep-alive blank delta, stop delta, `[DONE]` sentinel. -/
def stream_tail : List SSEEvent :=
  [SSEEvent.delta " ", SSEEvent.stopDelta, SSEEvent.doneSentinel]

/-- The events actually yielded by the `stream_response` generator in
`server.py` (lines 45-80).  The initial placeholder delta is yielded
before the agent call; if the agent call raises, the exception propagates
out of the generator, so no further event is yielded (there is no
`try`/`except` in `stream_response` or `product_documentation_agent`
around `get_response`). -/
def stream_response (result : Except AgentError String) : List SSEEvent :=
  SSEEvent.delta "" ::
    match result with
    | Except.error _ => []
    | Except.ok resp => word_events resp ++ stream_tail

/-- The `"data"` object of a copilot reference: `ref["data"]`, which may or
may not carry a `"content"` key. -/
structure RefData where
  content : Option String
deriving DecidableEq, Repr

/-- One entry of `latest_message["copilot_references"]` as read by
`product_documentation_agent` (`server.py` lines 116-120): `ref.get("type")`,
`ref.get("id", ...)` and the optional `"data"` object. -/
structure CopilotRef where
  type : Option String
  id : Option String
  data : Option RefData
deriving DecidableEq, Repr

/-- A chat message as read by the handler: the optional `"content"` key and
the optional `"copilot_references"` list. -/
structure ChatMessage where
  content : Option String
  copilot_references : Option (List CopilotRef)
deriving DecidableEq, Repr, Inhabited

/-- The labeled block built for one qualifying reference
(`server.py` lines 117-120): requires `ref.get("type") == "client.file"`,
`"data" in ref` and `"content" in ref["data"]`; the label uses
`ref.get("id", "UNKNOWN FILE")`. -/
def ref_block (r : CopilotRef) : Option String :=
  if r.type = some "client.file" then
    match r.data with
    | some d =>
      match d.content with
      | some code_content =>
        some ("\n\nFILENAME:\n" ++ r.id.getD "UNKNOWN FILE" ++
          "\n\nCODE CONTENT:\n" ++ code_content)
      | none => none
    | none => none
  else none

/-- The `for ref in latest_message["copilot_references"]` loop of
`server.py` lines 116-120, appending one block per qualifying reference in
input order. -/
def collect_code_contexts : List CopilotRef → List String
  | [] => []
  | r :: rs =>
    match ref_block r with
    | some b => b :: collect_code_contexts rs
    | none => collect_code_contexts rs

/-- `code_context` from `server.py` lines 114-123, including the Python
truthiness test `if latest_message.get("copilot_references"):` (an absent
key or an empty list both skip the loop). -/
def code_context (m : ChatMessage) : String :=
  let code_contexts :=
    match m.copilot_references with
    | none => []
    | some refs => if refs = [] then [] else collect_code_contexts refs
  if code_contexts = [] then "NO CODE CONTEXT PROVIDED."
  else String.intercalate "\n\n---\n\n" code_contexts

/-- `PROMPT_TEMPLATE` (from `prompt_template.py`) up to the
`2.2 Query: ` slot. -/
def PROMPT_TEMPLATE_part1 : String :=
  "1. MODEL INTENTION\nYou are an AI assistant with expertise in DigitalOcean's cloud services, products, and documentation. Your role is to process the user's query and, if applicable, their provided code, to generate precise insights and actionable recommendations. Your response should always be aligned with the user’s intent, whether they are requesting information, troubleshooting, or seeking best practices.\n\n2. USER INPUT\n2.1 Definition: The user query is a direct request for information, clarification, or guidance related to DigitalOcean services, general coding practices, or a specific code implementation.  \n2.2 Query: "

/-- `PROMPT_TEMPLATE` between the `user_query` and `code_context` slots. -/
def PROMPT_TEMPLATE_part2 : String :=
  "  \n2.3 Code Context: "

/-- `PROMPT_TEMPLATE` after the `code_context` slot. -/
def PROMPT_TEMPLATE_part3 : String :=
  "  \n\n3. RESPONSE GUIDELINES\n3.1 If the user’s query explicitly references DigitalOcean, provide a response based on DigitalOcean's documentation, services, or best practices. If necessary, cite specific documentation sources.  \n3.2 If the user’s query does not mention DigitalOcean but includes code, analyze the code in context and generate insights or actionable recommendations. Ensure the response directly applies to the provided code.  \n3.3 If the query is general and does not reference DigitalOcean or provide code, deliver a response based on software development best practices, ensuring it remains relevant and useful.  \n3.4 Prioritize clear, practical, and actionable responses that enable the user to immediately apply the information.  \n3.5 Ensure responses are solution-oriented and structured to directly assist the user with their request.  \n\n4. RESPONSE FORMAT\n4.1 Responses must be structured logically, ensuring clarity and direct applicability.  \n4.2 If step-by-step guidance is necessary, number the steps sequentially for improved readability.  \n4.3 Use precise, concise language while avoiding unnecessary filler or theoretical explanations.  \n4.4 If relevant, provide direct links to DigitalOcean documentation or practical code snippets that illustrate the solution.  \n4.5 Optimize responses for actionability, ensuring users can implement the guidance effectively.  \n"

/-- `PROMPT_TEMPLATE.format(user_query=..., code_context=...)`: the template
contains no brace other than the two named slots, so Python `str.format`
is plain interpolation. -/
def format_prompt (user_query code_context : String) : String :=
  PROMPT_TEMPLATE_part1 ++ user_query ++ PROMPT_TEMPLATE_part2 ++
    code_context ++ PROMPT_TEMPLATE_part3

/-- The string handed to `pdocs_agent.get_response` for a given latest
message (`server.py` lines 110-126): stripped `content` (defaulting to the
empty string) as the query, plus the extracted code context. -/
def agent_input (m : ChatMessage) : String :=
  format_prompt (pyStrip (m.content.getD "")) (code_context m)

/-- The agent configuration read from the environment
(`server.py` lines 96-101). -/
structure AgentConfig where
  api_base : String
  agent_id : String
  agent_key : String
  agent_endpoint : String
deriving DecidableEq, Repr

/-- The degraded answer returned when configuration is missing
(`server.py` line 106). -/
def CONFIG_INCOMPLETE_MSG : String :=
  "Error: Agent configuration incomplete. Please check environment variables."

/-- The validation test of `server.py` line 104: any of `agent_id`,
`agent_key`, `agent_endpoint` empty (Python falsy). -/
def config_incomplete (c : AgentConfig) : Bool :=
  c.agent_id = "" || c.agent_key = "" || c.agent_endpoint = ""

/-- `product_documentation_agent` (`server.py` lines 92-134), with the
upstream call `pdocs_agent.get_response` abstracted as an oracle that
either returns the documentation answer or raises one of the
`AgentError` exceptions.  The second component counts the upstream agent
calls attempted (0 when configuration is incomplete, since the function
returns the explanatory message before constructing `AgentWrapper`). -/
def product_documentation_agent (config : AgentConfig)
    (get_response : String → Except AgentError String) (m : ChatMessage) :
    Except AgentError String × Nat :=
  if config_incomplete config then (Except.ok CONFIG_INCOMPLETE_MSG, 0)
  else (get_response (agent_input m), 1)

/-- Outcome of the `/completion` handler: an `HTTPException` with a status
code, an unhandled exception escaping the handler before the stream is
built (e.g. the `KeyError` from `latest_message['content']` on line 42),
or a `StreamingResponse` whose generator yields the given events. -/
inductive CompletionOutcome where
  | httpError (status : Nat)
  | serverError
  | stream (events : List SSEEvent)
deriving DecidableEq, Repr

/-- The `completion` handler (`server.py` lines 21-90): validates the
auth header (Python falsy: absent or empty → 401), then the messages list
(empty → 400), reads `messages[-1]` and its `'content'` (a missing key
raises `KeyError` before the streaming response is returned), then opens
the SSE stream whose generator calls `product_documentation_agent`.  The
second component counts upstream agent calls. -/
def completion (auth_token : Option String) (messages : List ChatMessage)
    (config : AgentConfig) (get_response : String → Except AgentError String) :
    CompletionOutcome × Nat :=
  if auth_token.getD "" = "" then (CompletionOutcome.httpError 401, 0)
  else
    match messages.getLast? with
    | none => (CompletionOutcome.httpError 400, 0)
    | some latest =>
      match latest.content with
      | none => (CompletionOutcome.serverError, 0)
      | some _ =>
        let r := product_documentation_agent config get_response latest
        (CompletionOutcome.stream (stream_response r.1), r.2)

/-- A JWT token as seen by `AgentWrapper.is_token_expired`: either its
structure fails to decode, or it decodes to a payload with an optional
`exp` claim (seconds since epoch). -/
inductive JwtToken where
  | malformed
  | payload (exp : Option Int)
deriving DecidableEq, Repr

/-- Outcome of `jwt.decode(token, options=...)`. -/
inductive DecodeOutcome where
  | ok
  | expiredSignature
  | decodeError
deriving DecidableEq, Repr

/-- Modelled behaviour of the external PyJWT call
`jwt.decode(token, options={verify_signature: False, verify_exp: True})`
(`AgentWrapper.py` line 126): a structurally malformed token raises
`DecodeError`; a well-formed token whose `exp` claim is at or before the
current time raises `ExpiredSignatureError` (PyJWT expires when
`exp <= now` with zero leeway); a well-formed token with no `exp` claim
is not validated against the clock and decodes successfully (PyJWT only
checks `exp` when the claim is present and `require` is not set). -/
def jwt_decode (now : Int) (t : JwtToken) : DecodeOutcome :=
  match t with
  | JwtToken.malformed => DecodeOutcome.decodeError
  | JwtToken.payload none => DecodeOutcome.ok
  | JwtToken.payload (some e) =>
    if e ≤ now then DecodeOutcome.expiredSignature else DecodeOutcome.ok

/-- Result of a call to `is_token_expired`: a returned boolean, or a
re-raised exception. -/
inductive ExpiryResult where
  | returns (b : Bool)
  | raises
deriving DecidableEq, Repr

/-- `AgentWrapper.is_token_expired` (`AgentWrapper.py` lines 106-131):
returns `True` exactly when decode raises `ExpiredSignatureError`,
returns `False` when decode succeeds, and re-raises any other decode
exception. -/
def is_token_expired (now : Int) (t : JwtToken) : ExpiryResult :=
  match jwt_decode now t with
  | DecodeOutcome.expiredSignature => ExpiryResult.returns true
  | DecodeOutcome.decodeError => ExpiryResult.raises
  | DecodeOutcome.ok => ExpiryResult.returns false

/-- The token fields of an `AgentWrapper` instance (`AgentWrapper.py`
lines 51-52), `None` until first issued. -/
structure AgentTokens where
  refresh_token : Option JwtToken
  access_token : Option JwtToken
deriving DecidableEq, Repr

/-- Result of one network token call: the token extracted from a
successful response, or a raised `Exception` on a non-success status. -/
inductive NetResult where
  | success (t : JwtToken)
  | failure
deriving DecidableEq, Repr

/-- Oracle for the two token endpoints: `post_result` models the POST in
`get_refresh_token`, `put_result` the PUT in `get_access_token`. -/
structure NetOracle where
  post_result : NetResult
  put_result : NetResult
deriving DecidableEq, Repr

/-- Trace of one `refresh_tokens_if_needed` call: how many refresh-token
POST requests and access-token PUT requests were issued, the token state
on exit, and whether the call raised. -/
structure RefreshTrace where
  posts : Nat
  puts : Nat
  finalState : AgentTokens
  raised : Bool
deriving DecidableEq, Repr

/-- The short-circuit test `not self.<token> or self.is_token_expired(...)`
(`AgentWrapper.py` lines 147 and 149): an absent token needs renewal
without calling `is_token_expired`; a present token defers to
`is_token_expired`, which may raise. -/
def needs_new (now : Int) (t : Option JwtToken) : ExpiryResult :=
  match t with
  | none => ExpiryResult.returns true
  | some tok => is_token_expired now tok

/-- The second `if` of `refresh_tokens_if_needed` (`AgentWrapper.py`
lines 149-150): renew the access token via the PUT endpoint when absent
or expired.  `posts` is threaded through unchanged. -/
def access_step (now : Int) (o : NetOracle) (s : AgentTokens) (posts : Nat) :
    RefreshTrace :=
  match needs_new now s.access_token with
  | ExpiryResult.raises => ⟨posts, 0, s, true⟩
  | ExpiryResult.returns false => ⟨posts, 0, s, false⟩
  | ExpiryResult.returns true =>
    match o.put_result with
    | NetResult.failure => ⟨posts, 1, s, true⟩
    | NetResult.success tok => ⟨posts, 1, { s with access_token := some tok }, false⟩

/-- `AgentWrapper.refresh_tokens_if_needed` (`AgentWrapper.py` lines
133-150): first the refresh-token check (POST on renewal), then the
access-token check (PUT on renewal); an exception in either step aborts
the method. -/
def refresh_tokens_if_needed (now : Int) (o : NetOracle) (s : AgentTokens) :
    RefreshTrace :=
  match needs_new now s.refresh_token with
  | ExpiryResult.raises => ⟨0, 0, s, true⟩
  | ExpiryResult.returns false => access_step now o s 0
  | ExpiryResult.returns true =>
    match o.post_result with
    | NetResult.failure => ⟨1, 0, s, true⟩
    | NetResult.success tok =>
      access_step now o { s with refresh_token := some tok } 1

/-- Space-joined rendering of a word list (used to state what the
streamed words reassemble to). -/
def joinWords : List String → String
  | [] => ""
  | [w] => w
  | w :: ws => w ++ " " ++ joinWords ws

/-- Concatenation of a list of delta contents. -/
def concatContents : List String → String
  | [] => ""
  | s :: ss => s ++ concatContents ss

/-- The contents of the answer-carrying delta events of a stream: drop the
initial placeholder delta and the three closing events (keep-alive delta,
stop delta, `[DONE]` sentinel), and read the delta contents of what
remains. -/
def answer_contents (evs : List SSEEvent) : List String :=
  (((evs.drop 1).dropLast).dropLast).dropLast.filterMap
    (fun e =>
      match e with
      | SSEEvent.delta c => some c
      | _ => none)

/-! ### Properties of the `str.split()` model -/

/-- Every word produced by the splitter is non-empty and free of
whitespace characters (given the accumulator only holds non-space
characters). -/
theorem pySplitAux_clean :
    ∀ (l cur : List Char), (∀ c ∈ cur, isPySpace c = false) →
      ∀ w ∈ pySplitAux l cur, w ≠ [] ∧ ∀ c ∈ w, isPySpace c = false := by
  intro l
  induction l with
  | nil =>
    intro cur hcur w hw
    by_cases hc : cur = []
    · simp [pySplitAux, hc] at hw
    · rw [pySplitAux, if_neg hc, List.mem_singleton] at hw
      subst hw
      refine ⟨by simpa using hc, ?_⟩
      intro c hcmem
      exact hcur c (List.mem_reverse.mp hcmem)
  | cons c cs ih =>
    intro cur hcur w hw
    rw [pySplitAux] at hw
    cases hsc : isPySpace c with
    | true =>
      rw [if_pos hsc] at hw
      by_cases hc : cur = []
      · rw [if_pos hc] at hw
        exact ih [] (by simp) w hw
      · rw [if_neg hc, List.mem_cons] at hw
        rcases hw with hw | hw
        · subst hw
          refine ⟨by simpa using hc, ?_⟩
          intro d hd
          exact hcur d (List.mem_reverse.mp hd)
        · exact ih [] (by simp) w hw
    | false =>
      rw [if_neg (by simp [hsc])] at hw
      refine ih (c :: cur) ?_ w hw
      intro d hd
      rcases List.mem_cons.mp hd with rfl | hd
      · exact hsc
      · exact hcur d hd

/-- If the splitter produces no word, the accumulator was empty and every
remaining character is whitespace. -/
theorem pySplitAux_eq_nil :
    ∀ (l cur : List Char), pySplitAux l cur = [] →
      cur = [] ∧ ∀ c ∈ l, isPySpace c = true := by
  intro l
  induction l with
  | nil =>
    intro cur h
    by_cases hc : cur = []
    · exact ⟨hc, by simp⟩
    · rw [pySplitAux, if_neg hc] at h
      exact absurd h (by simp)
  | cons c cs ih =>
    intro cur h
    rw [pySplitAux] at h
    cases hsc : isPySpace c with
    | true =>
      rw [if_pos hsc] at h
      by_cases hc : cur = []
      · rw [if_pos hc] at h
        obtain ⟨-, hall⟩ := ih [] h
        refine ⟨hc, ?_⟩
        intro d hd
        rcases List.mem_cons.mp hd with rfl | hd
        · exact hsc
        · exact hall d hd
      · rw [if_neg hc] at h
        exact absurd h (by simp)
    | false =>
      rw [if_neg (by simp [hsc])] at h
      obtain ⟨hne, -⟩ := ih (c :: cur) h
      exact absurd hne (by simp)

/-- A string of whitespace splits into no words. -/
theorem pySplitAux_nil_of_all_space :
    ∀ (l : List Char), (∀ c ∈ l, isPySpace c = true) → pySplitAux l [] = [] := by
  intro l
  induction l with
  | nil => intro _; simp [pySplitAux]
  | cons c cs ih =>
    intro h
    have hc : isPySpace c = true := h c (by simp)
    rw [pySplitAux, if_pos hc, if_pos rfl]
    exact ih (fun d hd => h d (List.mem_cons_of_mem c hd))

/-- The word filter in the streaming loop keeps exactly the words of the
answer: words survive `strip()` truthiness, and a wordless answer's single
raw chunk is dropped. -/
theorem filter_chunk_eq (text : String) :
    (chunk_text text).filter hasNonSpace = pyWords text := by
  by_cases hsplit : pySplitAux text.data [] = []
  · have hall := (pySplitAux_eq_nil text.data [] hsplit).2
    have hno : hasNonSpace text = false := by
      simp only [hasNonSpace, List.any_eq_false]
      intro c hc
      simp [hall c hc]
    simp [chunk_text, pyWords, hsplit, hno]
  · have hclean := pySplitAux_clean text.data [] (by simp)
    simp only [chunk_text, pyWords, List.map_eq_nil_iff]
    rw [if_neg (by simpa using hsplit)]
    rw [List.filter_map]
    congr 1
    rw [List.filter_eq_self]
    intro w hw
    obtain ⟨hne, hns⟩ := hclean w hw
    obtain ⟨c, cs, rfl⟩ := List.exists_cons_of_ne_nil hne
    simp only [Function.comp_apply, hasNonSpace]
    simp [hns c (by simp)]

/-! ### Claim theorems: streaming (C2, C10, C1) -/

/-- C2: for every agent answer string, `stream_response` emits exactly one
initial empty delta, then one delta per whitespace-delimited word of the
answer in original order with a single trailing space appended to each,
then the keep-alive single-space delta, then the stop delta with null
content, then the literal `[DONE]` sentinel — and nothing else. -/
theorem stream_event_order (resp : String) :
    stream_response (Except.ok resp) =
      SSEEvent.delta "" ::
        ((pyWords resp).map (fun w => SSEEvent.delta (w ++ " ")) ++
          [SSEEvent.delta " ", SSEEvent.stopDelta, SSEEvent.doneSentinel]) := by
  simp [stream_response, word_events, stream_tail, filter_chunk_eq]

/-- C10: an agent answer that is empty or all whitespace produces zero
word deltas (its single raw chunk fails the `strip()` truthiness test and
is never emitted), while the placeholder, keep-alive, stop delta and
`[DONE]` sentinel still appear in the normal order. -/
theorem whitespace_answer_stream (resp : String) (h : hasNonSpace resp = false) :
    stream_response (Except.ok resp) =
      [SSEEvent.delta "", SSEEvent.delta " ", SSEEvent.stopDelta,
        SSEEvent.doneSentinel] := by
  have hall : ∀ c ∈ resp.data, isPySpace c = true := by
    intro c hc
    have hc' := List.any_eq_false.mp h c hc
    simpa using hc'
  have hwords : pyWords resp = [] := by
    simp [pyWords, pySplitAux_nil_of_all_space resp.data hall]
  have hwe : word_events resp = [] := by
    simp [word_events, chunk_text, hwords, List.filter_cons, h]
  simp [stream_response, hwe, stream_tail]

/-- Witness for C10 at the concrete whitespace-only answer `" "`. -/
theorem whitespace_answer_stream_witness :
    stream_response (Except.ok " ") =
      [SSEEvent.delta "", SSEEvent.delta " ", SSEEvent.stopDelta,
        SSEEvent.doneSentinel] :=
  whitespace_answer_stream " " (by decide)

/-- C1 (amended): the stop delta followed by the `[DONE]` sentinel close
the stream whenever `product_documentation_agent` returns normally
(which includes the degraded configuration-incomplete answer); but when
`get_response` raises an authentication, decode, or transport exception,
the exception propagates out of the generator and the stream ends after
the initial placeholder with no terminator sequence and no explanatory
text. -/
theorem stream_terminator_amended (result : Except AgentError String) :
    (∀ resp, result = Except.ok resp →
        [SSEEvent.stopDelta, SSEEvent.doneSentinel] <:+ stream_response result) ∧
    (∀ e, result = Except.error e →
        stream_response result = [SSEEvent.delta ""]) := by
  constructor
  · intro resp h
    subst h
    refine ⟨SSEEvent.delta "" :: (word_events resp ++ [SSEEvent.delta " "]), ?_⟩
    simp [stream_response, stream_tail]
  · intro e h
    subst h
    rfl

/-- Witness for C1 (amended) at the concrete successful answer
`"answer"`. -/
theorem stream_terminator_amended_witness :
    [SSEEvent.stopDelta, SSEEvent.doneSentinel] <:+
      stream_response (Except.ok "answer") :=
  (stream_terminator_amended (Except.ok "answer")).1 "answer" rfl

/-- Counterexample to C1 as stated: when the agent call raises (here an
authentication failure), the opened stream consists of just the initial
placeholder delta — it does not end with the stop delta and the `[DONE]`
sentinel, and no explanatory text is streamed. -/
theorem stream_terminator_counterexample :
    stream_response (Except.error AgentError.authError) = [SSEEvent.delta ""] ∧
    ¬ ([SSEEvent.stopDelta, SSEEvent.doneSentinel] <:+
        stream_response (Except.error AgentError.authError)) := by
  constructor
  · rfl
  · rintro ⟨t, ht⟩
    have hlen := congrArg List.length ht
    simp [stream_response] at hlen

/-! ### Claim theorems: token lifecycle (C3, C4) -/

/-- C3 (amended): a token whose `exp` claim is at or before the current
time makes `is_token_expired` return `True` without raising; a
structurally malformed token makes it re-raise the decode error (an
outcome distinct from the returned booleans); but a well-formed token
with no `exp` claim does not raise — PyJWT only validates `exp` when the
claim is present, so `is_token_expired` returns `False` for it. -/
theorem token_expiry_check (now : Int) :
    (∀ e : Int, e ≤ now →
        is_token_expired now (JwtToken.payload (some e)) = ExpiryResult.returns true) ∧
    is_token_expired now JwtToken.malformed = ExpiryResult.raises ∧
    is_token_expired now (JwtToken.payload none) = ExpiryResult.returns false := by
  refine ⟨?_, rfl, rfl⟩
  intro e he
  simp [is_token_expired, jwt_decode, he]

/-- Witness for C3 (amended) at the concrete time 100 and expiry 50. -/
theorem token_expiry_check_witness :
    is_token_expired 100 (JwtToken.payload (some 50)) = ExpiryResult.returns true :=
  (token_expiry_check 100).1 50 (by decide)

/-- Counterexample to C3 as stated: a well-formed token with no expiry
claim does not raise a decode error — `is_token_expired` returns `False`
for it. -/
theorem token_expiry_counterexample :
    is_token_expired 0 (JwtToken.payload none) = ExpiryResult.returns false ∧
    ExpiryResult.returns false ≠ ExpiryResult.raises :=
  ⟨rfl, by decide⟩

/-- The access-token step never issues a POST: it forwards the count it
was given. -/
theorem access_step_posts (now : Int) (o : NetOracle) (s : AgentTokens) (posts : Nat) :
    (access_step now o s posts).posts = posts := by
  unfold access_step
  cases h : needs_new now s.access_token with
  | raises => simp
  | returns b =>
    cases b with
    | false => simp
    | true => cases o.put_result <;> simp

/-- The access-token step issues at most one PUT. -/
theorem access_step_puts_le (now : Int) (o : NetOracle) (s : AgentTokens) (posts : Nat) :
    (access_step now o s posts).puts ≤ 1 := by
  unfold access_step
  cases h : needs_new now s.access_token with
  | raises => simp
  | returns b =>
    cases b with
    | false => simp
    | true => cases o.put_result <;> simp

/-- With a present, unexpired access token the access-token step issues
no PUT. -/
theorem access_step_puts_of_valid (now : Int) (o : NetOracle) (s : AgentTokens)
    (posts : Nat) (tok : JwtToken) (h1 : s.access_token = some tok)
    (h2 : is_token_expired now tok = ExpiryResult.returns false) :
    (access_step now o s posts).puts = 0 := by
  have hn : needs_new now s.access_token = ExpiryResult.returns false := by
    rw [h1]
    exact h2
  unfold access_step
  rw [hn]

/-- C4: with a present, unexpired refresh token `refresh_tokens_if_needed`
issues no refresh-token POST; with a present, unexpired access token it
issues no access-token PUT; the two checks are made independently and at
most one network call of each kind occurs per invocation. -/
theorem refresh_no_redundant_calls (now : Int) (o : NetOracle) (s : AgentTokens) :
    (∀ rt, s.refresh_token = some rt →
        is_token_expired now rt = ExpiryResult.returns false →
        (refresh_tokens_if_needed now o s).posts = 0) ∧
    (∀ tok, s.access_token = some tok →
        is_token_expired now tok = ExpiryResult.returns false →
        (refresh_tokens_if_needed now o s).puts = 0) ∧
    (refresh_tokens_if_needed now o s).posts ≤ 1 ∧
    (refresh_tokens_if_needed now o s).puts ≤ 1 := by
  refine ⟨?_, ?_, ?_, ?_⟩
  · intro rt h1 h2
    have hn : needs_new now s.refresh_token = ExpiryResult.returns false := by
      rw [h1]
      exact h2
    unfold refresh_tokens_if_needed
    rw [hn]
    exact access_step_posts now o s 0
  · intro tok h1 h2
    unfold refresh_tokens_if_needed
    cases hn : needs_new now s.refresh_token with
    | raises => simp
    | returns b =>
      cases b with
      | false => exact access_step_puts_of_valid now o s 0 tok h1 h2
      | true =>
        cases o.post_result with
        | failure => simp
        | success rt => exact access_step_puts_of_valid now o _ 1 tok h1 h2
  · unfold refresh_tokens_if_needed
    cases hn : needs_new now s.refresh_token with
    | raises => simp
    | returns b =>
      cases b with
      | false => simp [access_step_posts]
      | true =>
        cases o.post_result with
        | failure => simp
        | success rt => simp [access_step_posts]
  · unfold refresh_tokens_if_needed
    cases hn : needs_new now s.refresh_token with
    | raises => simp
    | returns b =>
      cases b with
      | false => exact access_step_puts_le now o s 0
      | true =>
        cases o.post_result with
        | failure => simp
        | success rt => exact access_step_puts_le now o _ 1

/-- Witness for C4 at a concrete state whose two tokens are present and
unexpired at time 0 (expiry 10), with an oracle that would fail if
called. -/
theorem refresh_no_redundant_calls_witness :
    (refresh_tokens_if_needed 0 ⟨NetResult.failure, NetResult.failure⟩
        ⟨some (JwtToken.payload (some 10)), some (JwtToken.payload (some 10))⟩).posts = 0 ∧
    (refresh_tokens_if_needed 0 ⟨NetResult.failure, NetResult.failure⟩
        ⟨some (JwtToken.payload (some 10)), some (JwtToken.payload (some 10))⟩).puts = 0 :=
  ⟨(refresh_no_redundant_calls 0 ⟨NetResult.failure, NetResult.failure⟩
      ⟨some (JwtToken.payload (some 10)), some (JwtToken.payload (some 10))⟩).1
      (JwtToken.payload (some 10)) rfl (by decide),
    (refresh_no_redundant_calls 0 ⟨NetResult.failure, NetResult.failure⟩
      ⟨some (JwtToken.payload (some 10)), some (JwtToken.payload (some 10))⟩).2.1
      (JwtToken.payload (some 10)) rfl (by decide)⟩

/-! ### Claim theorems: handler validation and configuration (C5, C6, C9) -/

/-- C5: on a validated request with a required agent configuration value
missing, no upstream agent call is attempted (call count 0), no HTTP
error status is returned, and the handler still opens a complete SSE
stream whose answer is the configuration-incomplete message, ending with
the stop delta and the `[DONE]` sentinel. -/
theorem config_incomplete_degraded (auth : String) (messages : List ChatMessage)
    (latest : ChatMessage) (c : String) (config : AgentConfig)
    (oracle : String → Except AgentError String)
    (hauth : auth ≠ "") (hlast : messages.getLast? = some latest)
    (hcontent : latest.content = some c)
    (hconfig : config_incomplete config = true) :
    completion (some auth) messages config oracle =
      (CompletionOutcome.stream (stream_response (Except.ok CONFIG_INCOMPLETE_MSG)), 0) ∧
    [SSEEvent.stopDelta, SSEEvent.doneSentinel] <:+
      stream_response (Except.ok CONFIG_INCOMPLETE_MSG) := by
  constructor
  · simp [completion, hauth, hlast, hcontent, product_documentation_agent, hconfig]
  · refine ⟨SSEEvent.delta "" ::
      (word_events CONFIG_INCOMPLETE_MSG ++ [SSEEvent.delta " "]), ?_⟩
    simp [stream_response, stream_tail]

/-- A configuration with the three required agent values empty, as when
the `AGENT_ID`, `AGENT_KEY` and `AGENT_ENDPOINT` environment variables
are unset. -/
def emptyConfig : AgentConfig :=
  ⟨"https://cluster-api.do-ai.run/v1", "", "", ""⟩

/-- A fully populated agent configuration. -/
def config0 : AgentConfig :=
  ⟨"https://cluster-api.do-ai.run/v1", "agent-id", "agent-key",
    "https://agent.example/api/v1/"⟩

/-- An upstream oracle returning a fixed documentation answer. -/
def stubOracle : String → Except AgentError String :=
  fun _ => Except.ok "stub answer"

/-- An upstream oracle that raises a transport error. -/
def failOracle : String → Except AgentError String :=
  fun _ => Except.error AgentError.transportError

/-- Witness for C5 at a concrete validated request against the empty
configuration, with an oracle that would raise if it were called. -/
theorem config_incomplete_degraded_witness :
    completion (some "tok")
        [{ content := some "How do I resize a Droplet?", copilot_references := none }]
        emptyConfig failOracle =
      (CompletionOutcome.stream (stream_response (Except.ok CONFIG_INCOMPLETE_MSG)), 0) :=
  (config_incomplete_degraded "tok"
      [{ content := some "How do I resize a Droplet?", copilot_references := none }]
      { content := some "How do I resize a Droplet?", copilot_references := none }
      "How do I resize a Droplet?" emptyConfig failOracle
      (by decide) rfl rfl (by decide)).1

/-- C6 (amended): an absent or empty auth header yields exactly a 401
with no stream; a present auth header with an empty messages list yields
exactly a 400 with no stream; and a stream is opened exactly when the
auth header is non-empty, the messages list is non-empty, and its last
message carries a `content` value — when the last message lacks
`content`, the handler raises an unhandled `KeyError` before the stream
is built, so the 401/400 cases are not the only ways no stream is
opened. -/
theorem validation_responses (auth_token : Option String) (messages : List ChatMessage)
    (config : AgentConfig) (oracle : String → Except AgentError String) :
    (auth_token.getD "" = "" →
      completion auth_token messages config oracle = (CompletionOutcome.httpError 401, 0)) ∧
    (auth_token.getD "" ≠ "" → messages = [] →
      completion auth_token messages config oracle = (CompletionOutcome.httpError 400, 0)) ∧
    ((∃ evs n, completion auth_token messages config oracle =
        (CompletionOutcome.stream evs, n)) ↔
      auth_token.getD "" ≠ "" ∧
        ∃ latest, messages.getLast? = some latest ∧ ∃ c, latest.content = some c) := by
  refine ⟨?_, ?_, ?_⟩
  · intro h
    simp [completion, h]
  · intro h hm
    simp [completion, h, hm]
  · by_cases ha : auth_token.getD "" = ""
    · simp [completion, ha]
    · cases hm : messages.getLast? with
      | none => simp [completion, ha, hm]
      | some latest =>
        cases hc : latest.content with
        | none => simp [completion, ha, hm, hc]
        | some c => simp [completion, ha, hm, hc]

/-- Witness for C6 (amended): a request with no auth header is exactly a
401 with no agent call. -/
theorem validation_responses_witness :
    completion none [] config0 stubOracle = (CompletionOutcome.httpError 401, 0) :=
  (validation_responses none [] config0 stubOracle).1 rfl

/-- Counterexample to C6 as stated: a request with a non-empty auth
header and a non-empty messages list whose last message has no
`content` key raises an unhandled `KeyError` — no stream is opened even
though neither the 401 nor the 400 condition holds. -/
theorem validation_counterexample :
    completion (some "token") [{ content := none, copilot_references := none }]
        config0 stubOracle = (CompletionOutcome.serverError, 0) ∧
    CompletionOutcome.serverError ≠ CompletionOutcome.httpError 401 ∧
    CompletionOutcome.serverError ≠ CompletionOutcome.httpError 400 ∧
    ∀ evs : List SSEEvent, CompletionOutcome.serverError ≠ CompletionOutcome.stream evs := by
  refine ⟨rfl, by decide, by decide, ?_⟩
  intro evs h
  exact CompletionOutcome.noConfusion h

/-- C9: the composed agent prompt, and in fact the whole handler outcome,
depend only on the last element of the incoming message list: two
requests whose message lists share the same last element produce the
same agent input and the same response. -/
theorem last_message_only (auth_token : Option String) (config : AgentConfig)
    (oracle : String → Except AgentError String) (ms1 ms2 : List ChatMessage)
    (h : ms1.getLast? = ms2.getLast?) :
    (ms1.getLast?).map agent_input = (ms2.getLast?).map agent_input ∧
    completion auth_token ms1 config oracle = completion auth_token ms2 config oracle := by
  constructor
  · rw [h]
  · unfold completion
    rw [h]

/-- Witness for C9: prepending an extra earlier message does not change
the handler outcome. -/
theorem last_message_only_witness :
    completion (some "tok")
        [{ content := some "earlier question", copilot_references := none },
          { content := some "How do I resize a Droplet?", copilot_references := none }]
        config0 stubOracle =
      completion (some "tok")
        [{ content := some "How do I resize a Droplet?", copilot_references := none }]
        config0 stubOracle :=
  (last_message_only (some "tok") config0 stubOracle
      [{ content := some "earlier question", copilot_references := none },
        { content := some "How do I resize a Droplet?", copilot_references := none }]
      [{ content := some "How do I resize a Droplet?", copilot_references := none }]
      rfl).2

/-! ### Claim theorems: code-context extraction (C8) -/

/-- The reference loop produces exactly the order-preserving `filterMap`
of the block builder. -/
theorem collect_eq_filterMap :
    ∀ rs : List CopilotRef, collect_code_contexts rs = rs.filterMap ref_block := by
  intro rs
  induction rs with
  | nil => rfl
  | cons r rs ih =>
    cases h : ref_block r with
    | none => simp [collect_code_contexts, h, ih, List.filterMap_cons]
    | some b => simp [collect_code_contexts, h, ih, List.filterMap_cons]

/-- C8: the extracted code context lists one labeled block per reference
of type `client.file` that carries file content, in the order the
references appear, joined by the fixed separator; with no qualifying
reference it is exactly the sentinel `"NO CODE CONTEXT PROVIDED."`. -/
theorem code_context_spec (m : ChatMessage) :
    (code_context m =
      match (m.copilot_references.getD []).filterMap ref_block with
      | [] => "NO CODE CONTEXT PROVIDED."
      | b :: bs => String.intercalate "\n\n---\n\n" (b :: bs)) ∧
    ∀ r : CopilotRef, (ref_block r).isSome ↔
      (r.type = some "client.file" ∧ ∃ d, r.data = some d ∧ ∃ c, d.content = some c) := by
  constructor
  · obtain ⟨mc, mrefs⟩ := m
    cases mrefs with
    | none => rfl
    | some refs =>
      cases refs with
      | nil => rfl
      | cons r rs =>
        cases hf : (r :: rs).filterMap ref_block with
        | nil => simp [code_context, collect_eq_filterMap, hf]
        | cons b bs => simp [code_context, collect_eq_filterMap, hf]
  · intro r
    unfold ref_block
    by_cases ht : r.type = some "client.file"
    · rw [if_pos ht]
      cases hd : r.data with
      | none => simp [hd]
      | some d =>
        cases hc : d.content with
        | none => simp [hd, hc]
        | some c => simp [ht, hd, hc]
    · rw [if_neg ht]
      simp [ht]

/-! ### Claim theorems: answer round-trip through the stream (C7) -/

/-- Space-joined rendering of a list of character-list words. -/
def joinChars : List (List Char) → List Char
  | [] => []
  | [w] => w
  | w :: ws => w ++ ' ' :: joinChars ws

/-- Concatenation of a list of character lists. -/
def concatChars : List (List Char) → List Char
  | [] => []
  | w :: ws => w ++ concatChars ws

/-- Concatenating space-padded words yields the space-joined words plus
one trailing space. -/
theorem concatChars_pad :
    ∀ (ws : List (List Char)) (w : List Char),
      concatChars ((w :: ws).map (fun v => v ++ [' '])) = joinChars (w :: ws) ++ [' '] := by
  intro ws
  induction ws with
  | nil =>
    intro w
    simp [concatChars, joinChars]
  | cons v vs ih =>
    intro w
    have h1 : concatChars ((w :: v :: vs).map (fun u => u ++ [' '])) =
        (w ++ [' ']) ++ concatChars ((v :: vs).map (fun u => u ++ [' '])) := rfl
    rw [h1, ih v]
    simp [joinChars]

/-- The space-join of a non-empty word list starts with a character of
its first word. -/
theorem joinChars_cons_head (w : List Char) (ws : List (List Char)) (hw : w ≠ []) :
    ∃ c t, joinChars (w :: ws) = c :: t ∧ c ∈ w := by
  obtain ⟨c, w', rfl⟩ := List.exists_cons_of_ne_nil hw
  cases ws with
  | nil => exact ⟨c, w', rfl, by simp⟩
  | cons v vs =>
    refine ⟨c, w' ++ ' ' :: joinChars (v :: vs), ?_, by simp⟩
    simp [joinChars]

/-- The space-join of a list of non-empty words ends with a character of
one of the words. -/
theorem joinChars_getLast :
    ∀ (ws : List (List Char)) (w : List Char), (∀ v ∈ w :: ws, v ≠ []) →
      ∃ d v, (joinChars (w :: ws)).getLast? = some d ∧ v ∈ w :: ws ∧ d ∈ v := by
  intro ws
  induction ws with
  | nil =>
    intro w hne
    have hw : w ≠ [] := hne w (by simp)
    obtain ⟨d, hd⟩ := Option.isSome_iff_exists.mp (List.getLast?_isSome.mpr hw)
    exact ⟨d, w, by simpa [joinChars] using hd, by simp,
      List.mem_of_getLast?_eq_some hd⟩
  | cons v vs ih =>
    intro w hne
    obtain ⟨d, v', hd, hv', hdv⟩ := ih v (fun u hu => hne u (List.mem_cons_of_mem w hu))
    refine ⟨d, v', ?_, List.mem_cons_of_mem w hv', hdv⟩
    have hsplit : joinChars (w :: v :: vs) = w ++ ([' '] ++ joinChars (v :: vs)) := by
      simp [joinChars]
    rw [hsplit, List.getLast?_append, List.getLast?_append, hd]
    rfl

/-- Stripping the concatenation of space-padded clean words (non-empty,
whitespace-free) recovers exactly the space-joined words. -/
theorem pyStrip_concat_pad :
    ∀ ws : List (List Char),
      (∀ w ∈ ws, w ≠ [] ∧ ∀ c ∈ w, isPySpace c = false) →
      pyStripChars (concatChars (ws.map (fun v => v ++ [' ']))) = joinChars ws := by
  intro ws hclean
  cases ws with
  | nil => rfl
  | cons w ws' =>
    rw [concatChars_pad]
    obtain ⟨c, t, hct, hcw⟩ := joinChars_cons_head w ws' (hclean w (by simp)).1
    have hcns : isPySpace c = false := (hclean w (by simp)).2 c hcw
    obtain ⟨d, v, hd, hvmem, hdv⟩ :=
      joinChars_getLast ws' w (fun u hu => (hclean u hu).1)
    have hdns : isPySpace d = false := (hclean v hvmem).2 d hdv
    rw [hct] at hd ⊢
    obtain ⟨r, hr⟩ : ∃ r, (c :: t).reverse = d :: r := by
      have hh : (c :: t).reverse.head? = some d := by
        rw [List.head?_reverse]
        exact hd
      obtain ⟨ys, hys⟩ := List.head?_eq_some_iff.mp hh
      exact ⟨ys, hys⟩
    unfold pyStripChars
    have h1 : ((c :: t) ++ [' ']).dropWhile isPySpace = (c :: t) ++ [' '] := by
      rw [List.cons_append]
      rw [List.dropWhile_cons_of_neg (by simp [hcns])]
    rw [h1]
    have h2 : ((c :: t) ++ [' ']).reverse = ' ' :: (c :: t).reverse := by
      rw [List.reverse_append]
      rfl
    rw [h2, List.dropWhile_cons_of_pos (by decide), hr,
      List.dropWhile_cons_of_neg (by simp [hdns]), ← hr, List.reverse_reverse]

/-- Data view of `concatContents`. -/
theorem concatContents_data (ss : List String) :
    (concatContents ss).data = concatChars (ss.map String.data) := by
  induction ss with
  | nil => rfl
  | cons s ss ih => simp [concatContents, concatChars, ih]

/-- Data view of `joinWords`. -/
theorem joinWords_data : ∀ ss : List String,
    (joinWords ss).data = joinChars (ss.map String.data)
  | [] => rfl
  | [w] => rfl
  | w :: v :: ws => by
    have ih := joinWords_data (v :: ws)
    simp only [joinWords, joinChars, List.map_cons] at ih ⊢
    simp [ih]

/-- Mapping construction and then data projection over character lists is
the identity. -/
theorem map_data_mk (ws : List (List Char)) :
    (ws.map (fun w => String.mk w)).map String.data = ws := by
  induction ws with
  | nil => rfl
  | cons a as ih => simp [ih]

/-- Stripping the concatenation of the streamed word chunks recovers the
space-join of the answer's words. -/
theorem strip_join_words (resp : String) :
    pyStrip (concatContents ((pyWords resp).map (fun w => w ++ " "))) =
      joinWords (pyWords resp) := by
  apply String.ext
  have hsp : (" " : String).data = [' '] := rfl
  have hmap : ((pyWords resp).map (fun w => w ++ " ")).map String.data =
      (pySplitAux resp.data []).map (fun v => v ++ [' ']) := by
    simp [pyWords, List.map_map, Function.comp, hsp]
  have hmap2 : (pyWords resp).map String.data = pySplitAux resp.data [] :=
    map_data_mk (pySplitAux resp.data [])
  show pyStripChars (concatContents ((pyWords resp).map (fun w => w ++ " "))).data =
    (joinWords (pyWords resp)).data
  rw [concatContents_data, joinWords_data, hmap, hmap2]
  exact pyStrip_concat_pad _ (pySplitAux_clean resp.data [] (by simp))

/-- The delta-content extractor inverts delta construction on a list of
word deltas. -/
theorem filterMap_delta (f : String → String) (ss : List String) :
    (ss.map (fun w => SSEEvent.delta (f w))).filterMap
      (fun e =>
        match e with
        | SSEEvent.delta c => some c
        | _ => none) = ss.map f := by
  induction ss with
  | nil => rfl
  | cons a as ih => simp [ih]

/-- The answer-carrying delta contents of a successful stream are exactly
the answer's words, each padded with one trailing space. -/
theorem answer_contents_stream (resp : String) :
    answer_contents (stream_response (Except.ok resp)) =
      (pyWords resp).map (fun w => w ++ " ") := by
  have hwe : word_events resp = (pyWords resp).map (fun w => SSEEvent.delta (w ++ " ")) := by
    rw [word_events, filter_chunk_eq]
  have hshape : stream_response (Except.ok resp) =
      SSEEvent.delta "" :: (word_events resp ++
        [SSEEvent.delta " ", SSEEvent.stopDelta, SSEEvent.doneSentinel]) := rfl
  rw [answer_contents, hshape]
  simp only [List.drop_succ_cons, List.drop_zero]
  have h3 : (word_events resp ++
      [SSEEvent.delta " ", SSEEvent.stopDelta, SSEEvent.doneSentinel]).dropLast =
      word_events resp ++ [SSEEvent.delta " ", SSEEvent.stopDelta] := by
    simp [List.dropLast_append_cons]
  have h2 : (word_events resp ++ [SSEEvent.delta " ", SSEEvent.stopDelta]).dropLast =
      word_events resp ++ [SSEEvent.delta " "] := by
    simp [List.dropLast_append_cons]
  have h1 : (word_events resp ++ [SSEEvent.delta " "]).dropLast = word_events resp := by
    rw [List.dropLast_concat]
  rw [h3, h2, h1, hwe]
  exact filterMap_delta (fun w => w ++ " ") (pyWords resp)

/-- C7 (amended): on a validated request with complete configuration and
the upstream call stubbed to return a fixed string, the handler opens a
stream after exactly one agent call, and concatenating the
answer-carrying delta contents and stripping the padding spaces recovers
the stub — provided the stub equals the single-space join of its own
whitespace-delimited words (for a stub with leading/trailing whitespace
or runs of whitespace, word-splitting normalises it instead). -/
theorem stubbed_answer_roundtrip (auth : String) (messages : List ChatMessage)
    (latest : ChatMessage) (c : String) (config : AgentConfig) (stub : String)
    (hauth : auth ≠ "") (hlast : messages.getLast? = some latest)
    (hcontent : latest.content = some c)
    (hconfig : config_incomplete config = false)
    (hstub : joinWords (pyWords stub) = stub) :
    completion (some auth) messages config (fun _ => Except.ok stub) =
      (CompletionOutcome.stream (stream_response (Except.ok stub)), 1) ∧
    pyStrip (concatContents (answer_contents (stream_response (Except.ok stub)))) =
      stub := by
  constructor
  · simp [completion, hauth, hlast, hcontent, product_documentation_agent, hconfig]
  · rw [answer_contents_stream, strip_join_words, hstub]

/-- Witness for C7 (amended) at the concrete stub
`"Use the Control Panel to create a database."`. -/
theorem stubbed_answer_roundtrip_witness :
    pyStrip (concatContents (answer_contents (stream_response
        (Except.ok "Use the Control Panel to create a database.")))) =
      "Use the Control Panel to create a database." :=
  (stubbed_answer_roundtrip "tok"
      [{ content := some "How do I resize a Droplet?", copilot_references := none }]
      { content := some "How do I resize a Droplet?", copilot_references := none }
      "How do I resize a Droplet?" config0
      "Use the Control Panel to create a database."
      (by decide) rfl rfl (by decide) (by decide)).2

/-- Counterexample to C7 as stated: with the agent stubbed to return
`"a  b"` (two spaces), the validated request streams the words `a` and
`b`, and the concatenated, stripped delta contents are `"a b"`, not the
original stub. -/
theorem stubbed_answer_counterexample :
    completion (some "tok") [{ content := some "q", copilot_references := none }]
        config0 (fun _ => Except.ok "a  b") =
      (CompletionOutcome.stream (stream_response (Except.ok "a  b")), 1) ∧
    pyStrip (concatContents (answer_contents (stream_response (Except.ok "a  b")))) =
      "a b" ∧
    ("a b" : String) ≠ "a  b" := by
  refine ⟨rfl, by decide, by decide⟩

end GithubDoExtension
